import Mathlib

/-!
# Shallow embedding of PyMagic's resilience/interception core

This file embeds, in Lean 4, the parts of the PyMagic library that the
specification's claims are about:

* `pymagic/_response.py` — the `Response` record (`ExecutionOutcome` in the
  spec): `Response.__init__`, `Response.execute`, `error_name`, `clear`,
  metadata writes.
* `pymagic/decorator_utils.py` — the retry/exception wrappers
  (`Decorate.catch_retry`, `Decorate.catch_retry_obj`,
  `Decorate._catch_retry_class`), the timeout guard (`Decorate.limit_time`
  together with `MyThread`), the capability enumerators (`class_func_list`,
  `Decorate.iter_func`) and the auto-decoration loops
  (`Decorate.catch_class_obj`, `Decorate.catch_class`).

Modelling conventions:

* Python values flowing through the wrappers are modelled by the inductive
  `PyVal` (None / bool / int / str), with Python truthiness (`PyVal.truthy`)
  and Python `==` (`pyEq`, under which `False == 0` and `True == 1`).
* A raised Python exception is an `Exc`: its class name (`kind`), its message
  (`msg`) and whether it is an instance of `Exception` (`isExc`) — Python's
  `except Exception` clauses catch exactly the faults with `isExc = true`;
  `BaseException`-only faults such as `KeyboardInterrupt` have
  `isExc = false` and fly past those clauses.
* A callable either returns a value or raises: `Except Exc PyVal`.  A
  callable invoked repeatedly (by a retry loop) is a function
  `ℕ → Except Exc PyVal` giving the behaviour of its i-th invocation.
* Clock readings (`time.perf_counter()`), sleep durations and time limits are
  rationals; real time is not modelled, but the sequence of `time.sleep`
  durations a wrapper performs is recorded explicitly in its trace.
* Python's `round(x, n)` rounds half to even; `roundHalfEven` implements that
  on ℚ scaled by `10^n`.
-/

/-- Python value universe used by the wrappers (the dynamic values the
library actually branches on: `None`, booleans, numbers, strings). -/
inductive PyVal where
  | vNone : PyVal
  | vBool : Bool → PyVal
  | vInt : Int → PyVal
  | vStr : String → PyVal
  deriving DecidableEq, Repr

/-- Python truthiness: `bool(x)` for the modelled values. -/
def PyVal.truthy : PyVal → Bool
  | .vNone => false
  | .vBool b => b
  | .vInt n => n ≠ 0
  | .vStr s => s ≠ ""

/-- Python `==` on the modelled values.  Python compares `bool` with `int`
numerically (`False == 0`, `True == 1`); distinct other types compare
unequal. -/
def pyEq : PyVal → PyVal → Bool
  | .vNone, .vNone => true
  | .vBool a, .vBool b => a = b
  | .vInt a, .vInt b => a = b
  | .vStr a, .vStr b => a = b
  | .vBool a, .vInt b => (if a then (1 : Int) else 0) = b
  | .vInt a, .vBool b => a = (if b then (1 : Int) else 0)
  | _, _ => false

/-- A raised Python exception: class name, message, and whether it is an
instance of `Exception` (as opposed to a bare `BaseException` descendant). -/
structure Exc where
  kind : String
  msg : String
  isExc : Bool
  deriving DecidableEq, Repr

/-- Round half to even (Python's `round` tie-breaking rule) of a rational to
an integer. -/
def roundHalfEven (y : ℚ) : ℤ :=
  let f := ⌊y⌋
  let r := y - f
  if r < 1/2 then f
  else if 1/2 < r then f + 1
  else if f % 2 = 0 then f else f + 1

/-- Python `round(x, 6)` on the modelled rational time values. -/
def pyRound6 (x : ℚ) : ℚ := (roundHalfEven (x * 1000000) : ℚ) / 1000000

/-- Python `round(x, 1)` (used by `Decorate.limit_time` on `limit_time % 1`). -/
def pyRound1 (x : ℚ) : ℚ := (roundHalfEven (x * 10) : ℚ) / 10

namespace pymagic

/-- `Response` (`pymagic/_response.py`): the execution-outcome record.
Fields mirror the Python attributes set in `Response.__init__`. -/
structure Response where
  success : Bool
  result : Option PyVal
  exception : Option Exc
  execution_time : ℚ
  start_time : ℚ
  end_time : Option ℚ
  metadata : List (String × PyVal)
  deriving DecidableEq, Repr

namespace Response

/-- `Response.__init__`.  Python evaluates `start_time or time.time()`:
a missing (`None`) or zero (falsy float) `start_time` is replaced by the
current wall-clock reading, which the model takes as the extra `now`
argument.  `metadata or {}` likewise replaces a missing metadata dict by an
empty one. -/
def init (success : Bool) (result : Option PyVal) (exception : Option Exc)
    (execution_time : ℚ) (start_time : Option ℚ) (end_time : Option ℚ)
    (metadata : Option (List (String × PyVal))) (now : ℚ) : Response :=
  { success := success
    result := result
    exception := exception
    execution_time := execution_time
    start_time := match start_time with
      | some t => if t = 0 then now else t
      | none => now
    end_time := end_time
    metadata := match metadata with
      | some m => m
      | none => [] }

/-- `Response.execute(func)`.  The callable's behaviour is `f` (normal return
or raised exception); `t0` and `t1` are the two `time.perf_counter()`
readings and `now` the wall clock consulted by `__init__` when `t0 = 0`.
The guard is `except Exception as e`: a caught fault is logged and stored in
the outcome, but a fault that is not an `Exception` instance (a bare
`BaseException` descendant such as `KeyboardInterrupt`) is not caught — it
propagates out of `execute` before the end-time bookkeeping runs and no
`Response` is constructed, modelled by the `.error e` result.  For every
constructed outcome `execution_time = round(max(t1 - t0, 1e-6), 6)`. -/
def execute (f : Except Exc PyVal) (t0 t1 now : ℚ) : Except Exc Response :=
  let execution_time := pyRound6 (max (t1 - t0) (1/1000000))
  match f with
  | .ok v =>
      .ok (init true (some v) none execution_time (some t0) (some t1)
        none now)
  | .error e =>
      if e.isExc then
        .ok (init false none (some e) execution_time (some t0) (some t1)
          none now)
      else .error e

/-- `Response.error_name`: `type(self.exception).__name__ if self.exception
else None`. -/
def error_name (r : Response) : Option String :=
  match r.exception with
  | some e => some e.kind
  | none => none

/-- `Response.clear()`: `self.result = None; self.exception = None;
self.metadata.clear()` — the other fields are untouched. -/
def clear (r : Response) : Response :=
  { r with result := none, exception := none, metadata := [] }

/-- A metadata write `response.metadata[k] = v` (Python dict assignment:
replace the value if the key is present, else append). -/
def metaPut (r : Response) (k : String) (v : PyVal) : Response :=
  { r with metadata :=
      if r.metadata.any (fun p => p.1 = k) then
        r.metadata.map (fun p => if p.1 = k then (k, v) else p)
      else
        r.metadata ++ [(k, v)] }

/-- The spec's invariant on outcomes: `fault != null ⇔ succeeded == false`. -/
def invariant (r : Response) : Prop :=
  r.exception ≠ none ↔ r.success = false

instance (r : Response) : Decidable r.invariant := by
  unfold invariant; infer_instance

end Response

end pymagic

instance {ε α : Type} [DecidableEq ε] [DecidableEq α] :
    DecidableEq (Except ε α)
  | .error a, .error b =>
    if h : a = b then .isTrue (by rw [h])
    else .isFalse (fun hc => h (by injection hc))
  | .error _, .ok _ => .isFalse (fun hc => Except.noConfusion hc)
  | .ok _, .error _ => .isFalse (fun hc => Except.noConfusion hc)
  | .ok a, .ok b =>
    if h : a = b then .isTrue (by rw [h])
    else .isFalse (fun hc => h (by injection hc))

/-- Python's `name.startswith('_')`: whether the first character is an
underscore. -/
def startsWithUnderscore (s : String) : Bool :=
  match s.data with
  | [] => false
  | c :: _ => c = '_'

namespace pymagic

/-- Trace of one invocation of a retry wrapper: the value returned to the
caller (`.ok`) or the exception propagated to it (`.error`), the number of
times the wrapped callable was invoked, and the list of `time.sleep`
durations performed between attempts, in order. -/
structure RetryTrace where
  result : Except Exc PyVal
  attempts : ℕ
  sleeps : List ℚ
  deriving DecidableEq, Repr

namespace Decorate

/-- The retry loop shared by `Decorate.catch_retry`'s `_wrapper` and
`Decorate.catch_retry_obj`'s `_wrapper` (their bodies are identical up to
where the parameters come from).  `i` is the number of invocations already
made (the behaviour of the next one is `f i`), `n` the current `retry_num`.
Loop body: try `f`; on normal return, return the value; an exception is
caught by `except Exception` only if it is an `Exception` instance
(otherwise it propagates out of the wrapper at once); after a caught
exception `retry_num` is decremented and, if it is still positive, the
wrapper sleeps `sleep_time` before re-attempting.  When `retry_num` reaches
zero the loop exits and `err_return` is returned. -/
def catch_retry_go (f : ℕ → Except Exc PyVal) (sleep_time : ℚ)
    (err_return : PyVal) : ℕ → ℕ → RetryTrace
  | i, 0 => ⟨.ok err_return, i, []⟩
  | i, n + 1 =>
    match f i with
    | .ok v => ⟨.ok v, i + 1, []⟩
    | .error e =>
      if e.isExc then
        let rest := catch_retry_go f sleep_time err_return (i + 1) n
        ⟨rest.result, rest.attempts,
          (if 0 < n then [sleep_time] else []) ++ rest.sleeps⟩
      else ⟨.error e, i + 1, []⟩

/-- `Decorate.catch_retry(err_return, retry_num=…, sleep_time=…)` applied to
a callable with per-invocation behaviour `f` (defaults: `err_return = False`,
`retry_num = 1`, `sleep_time = 3`).  Only `retry_num ≥ 1` is modelled: for
`retry_num < 1` the Python wrapper enters a deliberately infinite loop
(`flag = True`).  `Decorate.catch_retry_obj` has the same dynamics with the
parameters drawn from the `Decorate` instance. -/
def catch_retry_run (f : ℕ → Except Exc PyVal) (retry_num : ℕ)
    (sleep_time : ℚ) (err_return : PyVal) : RetryTrace :=
  catch_retry_go f sleep_time err_return 0 retry_num

/-- The loop of `Decorate._catch_retry_class`'s `_wrapper` (used by the
static `Decorate.catch_class`).  Identical to `catch_retry_go` except on a
normal return: if the returned value compares `==` to `err_return` the
wrapper prints a warning and returns `True` instead of the value. -/
def catch_retry_class_go (f : ℕ → Except Exc PyVal) (sleep_time : ℚ)
    (err_return : PyVal) : ℕ → ℕ → RetryTrace
  | i, 0 => ⟨.ok err_return, i, []⟩
  | i, n + 1 =>
    match f i with
    | .ok v =>
      if pyEq v err_return then ⟨.ok (.vBool true), i + 1, []⟩
      else ⟨.ok v, i + 1, []⟩
    | .error e =>
      if e.isExc then
        let rest := catch_retry_class_go f sleep_time err_return (i + 1) n
        ⟨rest.result, rest.attempts,
          (if 0 < n then [sleep_time] else []) ++ rest.sleeps⟩
      else ⟨.error e, i + 1, []⟩

/-- `Decorate._catch_retry_class(cls, name, func)`'s wrapper invoked once
(defaults: `err_return = False`, `retry_num = 1`, `sleep_time = 3`; the
static `Decorate.catch_class` passes no overrides). -/
def catch_retry_class_run (f : ℕ → Except Exc PyVal) (retry_num : ℕ)
    (sleep_time : ℚ) (err_return : PyVal) : RetryTrace :=
  catch_retry_class_go f sleep_time err_return 0 retry_num

end Decorate

/-- The worker callable handed to `MyThread` by `Decorate.limit_time`:
it takes `duration` time-units of work and then either returns a value or
raises.  (Real time is modelled by the cumulative sleep performed by the
polling caller.) -/
structure Worker where
  duration : ℚ
  outcome : Except Exc PyVal
  deriving DecidableEq, Repr

namespace MyThread

/-- `MyThread.get_result` as observed `elapsed` time-units after `start()`.
`run()` stores `self.func(*self.args)` into `self.result` only on normal
completion; before completion — and forever, if the worker raised, since the
exception escapes `run()` on the worker thread — `self.result` stays `None`.
(The `try/except` inside `get_result` guards only the attribute read and
cannot fire, so `err_result` is never returned from here.) -/
def get_result (w : Worker) (elapsed : ℚ) : PyVal :=
  if w.duration ≤ elapsed then
    match w.outcome with
    | .ok v => v
    | .error _ => .vNone
  else .vNone

end MyThread

namespace Decorate

/-- The polling loop of `Decorate.limit_time`'s `run`:
`for i in range(sleep_num): time.sleep(0.5); info = thread.get_result();
if info: return info`.  `k` is the number of polls left and `t` the elapsed
time so far; returns `some info` for the first poll whose result is truthy. -/
def limit_time_poll (w : Worker) : ℕ → ℚ → Option PyVal
  | 0, _ => none
  | k + 1, t =>
    let info := MyThread.get_result w (t + 1/2)
    if info.truthy then some info
    else limit_time_poll w k (t + 1/2)

/-- The time elapsed when the final `thread.get_result()` check of
`Decorate.limit_time` runs: `sleep_num` polls of 0.5 time-units plus the
final `time.sleep(round(limit_time % 1, 1))`. -/
def limit_time_final (limit_time : ℚ) : ℚ :=
  ((⌊limit_time⌋).toNat : ℚ) * (1/2) + pyRound1 (limit_time - ⌊limit_time⌋)

/-- `Decorate.limit_time(limit_time, err_result)` applied to a worker `w`:
`sleep_num = int(limit_time // 1)` polls of 0.5 time-units each (returning
the first truthy `get_result`), then a final sleep of
`round(limit_time % 1, 1)`; the final `thread.get_result()` is returned if
truthy, else `err_result` (with a timeout warning logged). -/
def limit_time_run (limit_time : ℚ) (err_result : PyVal) (w : Worker) :
    PyVal :=
  match limit_time_poll w (⌊limit_time⌋).toNat 0 with
  | some v => v
  | none =>
    if (MyThread.get_result w (limit_time_final limit_time)).truthy then
      MyThread.get_result w (limit_time_final limit_time)
    else err_result

end Decorate

/-- The reflective facts about one attribute name of a target object that
`class_func_list` / `Decorate.iter_func` branch on. -/
structure PyMember where
  /-- `isinstance(getattr(obj.__class__, name, None), property)` — the check
  the code performs.  For an *instance* target `obj.__class__` is its class;
  for a *class* target it is the metaclass, where an ordinary class-level
  `property` is not found. -/
  metaIsProp : Bool
  /-- whether the name resolves to a computed/property accessor on the
  target's *effective type* (the class itself when the target is a class) —
  the spec's notion. -/
  typeIsProp : Bool
  /-- `callable(getattr(obj, name))` — whether the enumerated value is
  callable.  For a class target with a class-level `property`,
  `getattr(cls, name)` is the property object itself, which is not
  callable. -/
  valIsCall : Bool
  /-- `callable(getattr(obj.__class__, name, None))` (consulted only by
  `Decorate.iter_func` with `flag_property=True`). -/
  clsIsCall : Bool
  deriving DecidableEq, Repr

/-- The reflective surface of a target object: `dir(obj)` in order, each name
paired with its `PyMember` facts, plus `callable(obj)`. -/
structure PyObj where
  dirList : List (String × PyMember)
  objCallable : Bool
  deriving DecidableEq, Repr

/-- `class_func_list(cls)` (`pymagic/decorator_utils.py`): if `callable(cls)`
holds, the `(name, getattr(cls, name))` pairs for every `name in dir(cls)`
that does not start with `_` and for which
`getattr(cls.__class__, name, None)` is not a `property`; otherwise the
empty list.  There is no check that the enumerated value itself is
callable. -/
def class_func_list (cls : PyObj) : List (String × PyMember) :=
  if cls.objCallable then
    cls.dirList.filter (fun p => ! startsWithUnderscore p.1 && !p.2.metaIsProp)
  else []

namespace Decorate

/-- `Decorate.iter_func(obj, flag_property)`: with `flag_property=False`
(the default) the same comprehension as `class_func_list` but with no
`callable(obj)` gate; with `flag_property=True`, additionally only names
whose class-level attribute is callable (property names are skipped — the
body that would collect them is `pass`ed out). -/
def iter_func (obj : PyObj) (flag_property : Bool) :
    List (String × PyMember) :=
  if !flag_property then
    obj.dirList.filter
      (fun p => ! startsWithUnderscore p.1 && !p.2.metaIsProp)
  else
    obj.dirList.filter
      (fun p => ! startsWithUnderscore p.1 && !p.2.metaIsProp &&
        p.2.clsIsCall)

end Decorate

/-- Syntactic representation of the callables bound to an object's
attributes, tracking how many retry/exception wrappers have been layered on:
`base id isCall` is an original member (callable iff `isCall`), `wrapped g`
is the `_wrapper` closure that `Decorate.catch_retry_obj` /
`Decorate._catch_retry_class` builds around `g`. -/
inductive FnRep where
  | base (id : ℕ) (isCall : Bool)
  | wrapped (inner : FnRep)
  deriving DecidableEq, Repr

/-- `callable(fn)`: wrapper closures are always callable. -/
def FnRep.isCallable : FnRep → Bool
  | .base _ c => c
  | .wrapped _ => true

/-- The mutable attribute state of the decoration target: `dir(obj)` (the
attribute names, which `setattr` on an existing name leaves unchanged), the
names that are `property` descriptors on `obj.__class__`, and the current
`getattr` binding of each name. -/
structure ObjState where
  dirNames : List String
  clsProps : List String
  attrs : String → Option FnRep

/-- `setattr(obj, n, f)` for a name already in `dir(obj)`. -/
def ObjState.setAttr (st : ObjState) (n : String) (f : FnRep) : ObjState :=
  { st with attrs := fun m => if m = n then some f else st.attrs m }

/-- The snapshot `Decorate.iter_func(obj)` (default flags) takes at the head
of each wrapping loop: `(name, getattr(obj, name))` for the public,
non-`property` names, in `dir` order. -/
def ObjState.iter_pairs (st : ObjState) : List (String × Option FnRep) :=
  (st.dirNames.filter
    (fun n => ! startsWithUnderscore n && ! st.clsProps.contains n)).map
    (fun n => (n, st.attrs n))

namespace Decorate

/-- One iteration of a wrapping loop body: the snapshot pair `(name, fn)` is
rebound to the wrapper if `fn` is callable (the `isinstance(fn, property)`
re-check can never fire here: the enumeration already removed `property`
names, so `getattr` values are plain members). -/
def wrap_step (s : ObjState) (p : String × Option FnRep) : ObjState :=
  match p.2 with
  | some f => if f.isCallable then s.setAttr p.1 (.wrapped f) else s
  | none => s

/-- Run a wrapping loop over a fixed snapshot `l` of `(name, fn)` pairs. -/
def apply_wraps (l : List (String × Option FnRep)) (s : ObjState) :
    ObjState :=
  l.foldl wrap_step s

/-- One full enumeration-and-wrap loop of `Decorate.catch_class_obj` (and of
the inner loop of `Decorate.catch_class`): snapshot the public callable
members, then rebind each to its wrapper. -/
def wrap_pass (st : ObjState) : ObjState := apply_wraps st.iter_pairs st

/-- `Decorate(obj).catch_class_obj()`: the method body contains the same
enumeration-and-wrap loop twice in sequence. -/
def catch_class_obj (st : ObjState) : ObjState := wrap_pass (wrap_pass st)

/-- `Decorate.catch_class(cls)` (static): the outer loop runs once per entry
of the `class_func_list(cls)` snapshot — for a class target `callable(cls)`
holds and `class_func_list`'s filter agrees with `iter_func`'s (both consult
`cls.__class__`) — and its body, which shadows the loop variables, is a full
`iter_func` re-enumeration wrapping every currently-bound callable. -/
def catch_class (st : ObjState) : ObjState :=
  (st.iter_pairs).foldl (fun s _ => wrap_pass s) st

end Decorate

/-- The one-method object used to witness C10: `dir` holds a single public
name bound to a callable original member. -/
def exampleObj : ObjState :=
  ObjState.mk ["foo"] []
    (fun n => if n = "foo" then some (FnRep.base 0 true) else none)

end pymagic

/-- `⌊y⌋ ≤ roundHalfEven y`: every branch returns `⌊y⌋` or `⌊y⌋ + 1`. -/
theorem le_roundHalfEven (y : ℚ) : ⌊y⌋ ≤ roundHalfEven y := by
  unfold roundHalfEven
  dsimp only []
  split
  · exact le_refl _
  · split
    · exact le_of_lt (by exact lt_add_one _)
    · split
      · exact le_refl _
      · exact le_of_lt (by exact lt_add_one _)

/-- If `1 ≤ y` then `1 ≤ roundHalfEven y`. -/
theorem one_le_roundHalfEven {y : ℚ} (h : 1 ≤ y) : 1 ≤ roundHalfEven y := by
  have h1 : (1 : ℤ) ≤ ⌊y⌋ := by
    exact_mod_cast Int.le_floor.mpr (by exact_mod_cast h)
  exact le_trans h1 (le_roundHalfEven y)

/-- If `0 ≤ y` then `0 ≤ roundHalfEven y`. -/
theorem roundHalfEven_nonneg {y : ℚ} (h : 0 ≤ y) : 0 ≤ roundHalfEven y := by
  have h1 : (0 : ℤ) ≤ ⌊y⌋ := by
    exact Int.le_floor.mpr (by exact_mod_cast h)
  exact le_trans h1 (le_roundHalfEven y)

/-- `pyRound6 x > 0` whenever `x ≥ 1e-6` (in particular for the clamped
elapsed time in `Response.execute`). -/
theorem pyRound6_pos {x : ℚ} (h : 1/1000000 ≤ x) : 0 < pyRound6 x := by
  unfold pyRound6
  have h1 : (1 : ℚ) ≤ x * 1000000 := by nlinarith
  have h2 : (1 : ℤ) ≤ roundHalfEven (x * 1000000) := one_le_roundHalfEven h1
  have h3 : (1 : ℚ) ≤ (roundHalfEven (x * 1000000) : ℚ) := by exact_mod_cast h2
  positivity

/-- `0 ≤ pyRound1 x` for `0 ≤ x`. -/
theorem pyRound1_nonneg {x : ℚ} (h : 0 ≤ x) : 0 ≤ pyRound1 x := by
  unfold pyRound1
  have h2 : (0 : ℤ) ≤ roundHalfEven (x * 10) := by
    exact roundHalfEven_nonneg (by linarith)
  have h3 : (0 : ℚ) ≤ (roundHalfEven (x * 10) : ℚ) := by exact_mod_cast h2
  positivity

namespace pymagic

namespace Decorate

/-- Every sleep performed by `catch_retry_go` has duration `sleep_time`. -/
theorem catch_retry_go_sleeps_const (f : ℕ → Except Exc PyVal)
    (sleep_time : ℚ) (err_return : PyVal) :
    ∀ (n i : ℕ) (x : ℚ),
      x ∈ (catch_retry_go f sleep_time err_return i n).sleeps →
      x = sleep_time := by
  intro n
  induction n with
  | zero =>
    intro i x hx
    simp [catch_retry_go] at hx
  | succ m ih =>
    intro i x hx
    unfold catch_retry_go at hx
    cases hf : f i with
    | ok v => rw [hf] at hx; simp at hx
    | error e =>
      rw [hf] at hx
      by_cases he : e.isExc
      · simp only [he, if_true] at hx
        rcases List.mem_append.mp hx with h1 | h1
        · by_cases hm : 0 < m
          · simp [hm] at h1; exact h1
          · simp [hm] at h1
        · exact ih (i + 1) x h1
      · simp [he] at hx

/-- If every invocation raises the same matched fault, the class wrapper
exhausts its attempts and returns `err_return`. -/
theorem catch_retry_class_go_allfail (f : ℕ → Except Exc PyVal) (e : Exc)
    (sleep_time : ℚ) (err_return : PyVal)
    (he : e.isExc = true) (hf : ∀ i, f i = .error e) :
    ∀ n i, (catch_retry_class_go f sleep_time err_return i n).result =
      .ok err_return := by
  intro n
  induction n with
  | zero => intro i; simp [catch_retry_class_go]
  | succ m ih =>
    intro i
    unfold catch_retry_class_go
    rw [hf i]
    simp only [he, if_true]
    exact ih (i + 1)

end Decorate

namespace Decorate

/-- If every observation of the worker is falsy, every poll fails. -/
theorem limit_time_poll_none (w : Worker)
    (h : ∀ t, (MyThread.get_result w t).truthy = false) :
    ∀ (k : ℕ) (t : ℚ), limit_time_poll w k t = none := by
  intro k
  induction k with
  | zero => intro t; simp [limit_time_poll]
  | succ m ih =>
    intro t
    simp [limit_time_poll, h, ih]

/-- If every observation of the worker is falsy — in particular for a worker
that raised, or one whose result is falsy — the guard returns `err_result`. -/
theorem limit_time_run_falsy (limit_time : ℚ) (err_result : PyVal)
    (w : Worker) (h : ∀ t, (MyThread.get_result w t).truthy = false) :
    limit_time_run limit_time err_result w = err_result := by
  unfold limit_time_run
  rw [limit_time_poll_none w h]
  simp [h]

/-- A worker that completed instantly with a truthy value is returned by the
first poll. -/
theorem limit_time_poll_ok {v : PyVal} (hv : v.truthy = true) :
    ∀ (k : ℕ), 1 ≤ k → ∀ t : ℚ, 0 ≤ t →
      limit_time_poll ⟨0, .ok v⟩ k t = some v := by
  intro k hk t ht
  obtain ⟨m, rfl⟩ := Nat.exists_eq_add_of_le hk
  have h2 : ((⟨0, .ok v⟩ : Worker)).duration ≤ t + 1/2 := by
    show (0 : ℚ) ≤ t + 1/2
    linarith
  rw [Nat.add_comm 1 m]
  show (if (MyThread.get_result ⟨0, .ok v⟩ (t + 1/2)).truthy then
      some (MyThread.get_result ⟨0, .ok v⟩ (t + 1/2))
    else limit_time_poll ⟨0, .ok v⟩ m (t + 1/2)) = some v
  unfold MyThread.get_result
  rw [if_pos h2]
  simp [hv]

end Decorate

namespace Decorate

/-- `wrap_step` never changes `dirNames` or `clsProps`. -/
theorem wrap_step_frame (s : ObjState) (p : String × Option FnRep) :
    (wrap_step s p).dirNames = s.dirNames ∧
    (wrap_step s p).clsProps = s.clsProps := by
  rcases p with ⟨n, fo⟩
  cases fo with
  | none => exact ⟨rfl, rfl⟩
  | some f =>
    constructor <;> (unfold wrap_step; dsimp only; split <;> rfl)

/-- `apply_wraps` never changes `dirNames` or `clsProps`. -/
theorem apply_wraps_frame (l : List (String × Option FnRep)) :
    ∀ s : ObjState, (apply_wraps l s).dirNames = s.dirNames ∧
      (apply_wraps l s).clsProps = s.clsProps := by
  induction l with
  | nil => intro s; exact ⟨rfl, rfl⟩
  | cons p t ih =>
    intro s
    have h1 := ih (wrap_step s p)
    have h2 := wrap_step_frame s p
    rw [apply_wraps, List.foldl_cons]
    exact ⟨(h1.1).trans h2.1, (h1.2).trans h2.2⟩

/-- A name bound by no pair of the snapshot keeps its binding. -/
theorem apply_wraps_attrs_other (l : List (String × Option FnRep))
    (n : String) (h : ∀ p ∈ l, p.1 ≠ n) :
    ∀ s : ObjState, (apply_wraps l s).attrs n = s.attrs n := by
  induction l with
  | nil => intro s; rfl
  | cons p t ih =>
    intro s
    rw [apply_wraps, List.foldl_cons]
    have h1 := ih (fun q hq => h q (List.mem_cons_of_mem p hq))
      (wrap_step s p)
    rw [apply_wraps] at h1
    rw [h1]
    rcases p with ⟨m, fo⟩
    have hm : m ≠ n := h (m, fo) (List.mem_cons_self _ _)
    cases fo with
    | none => rfl
    | some f =>
      unfold wrap_step
      dsimp only
      split
      · show (if n = m then some (FnRep.wrapped f) else s.attrs n) = s.attrs n
        rw [if_neg (Ne.symm hm)]
      · rfl

/-- A callable pair of a duplicate-free snapshot ends up wrapped. -/
theorem apply_wraps_attrs_mem (l : List (String × Option FnRep)) (n : String)
    (f : FnRep) (hcall : f.isCallable = true)
    (hnodup : (l.map Prod.fst).Nodup) (hmem : (n, some f) ∈ l) :
    ∀ s : ObjState, (apply_wraps l s).attrs n = some (FnRep.wrapped f) := by
  induction l with
  | nil => exact absurd hmem (List.not_mem_nil _)
  | cons p t ih =>
    intro s
    rw [apply_wraps, List.foldl_cons]
    rcases List.mem_cons.mp hmem with heq | hmt
    · subst heq
      have hnott : ∀ q ∈ t, q.1 ≠ n := by
        intro q hq hqn
        have : n ∈ t.map Prod.fst := hqn ▸ List.mem_map_of_mem Prod.fst hq
        exact (List.nodup_cons.mp hnodup).1 this
      have h1 := apply_wraps_attrs_other t n hnott (wrap_step s (n, some f))
      rw [apply_wraps] at h1
      rw [h1]
      unfold wrap_step
      dsimp only
      rw [if_pos hcall]
      show (if n = n then some (FnRep.wrapped f) else s.attrs n) =
        some (FnRep.wrapped f)
      rw [if_pos rfl]
    · have hpn : p.1 ≠ n := by
        intro hpn
        have : n ∈ t.map Prod.fst := List.mem_map_of_mem Prod.fst hmt
        exact (List.nodup_cons.mp hnodup).1 (hpn ▸ this)
      exact ih (List.nodup_cons.mp hnodup).2 hmt (wrap_step s p)

/-- One full wrapping pass rebinds every public, non-property, callable
member to a single wrapper around its previous binding, and leaves the
name/property structure untouched. -/
theorem wrap_pass_spec (st : ObjState) (n : String) (f : FnRep)
    (hnodup : st.dirNames.Nodup) (hdir : n ∈ st.dirNames)
    (hpub : startsWithUnderscore n = false)
    (hprop : st.clsProps.contains n = false)
    (hf : st.attrs n = some f) (hcall : f.isCallable = true) :
    (wrap_pass st).attrs n = some (FnRep.wrapped f) ∧
    (wrap_pass st).dirNames = st.dirNames ∧
    (wrap_pass st).clsProps = st.clsProps := by
  have hfiltermem : n ∈ st.dirNames.filter
      (fun n => ! startsWithUnderscore n && ! st.clsProps.contains n) :=
    List.mem_filter.mpr ⟨hdir, by rw [hpub, hprop]; rfl⟩
  have hmem : (n, some f) ∈ st.iter_pairs := by
    unfold ObjState.iter_pairs
    have := List.mem_map_of_mem (fun n => (n, st.attrs n)) hfiltermem
    dsimp only at this
    rwa [hf] at this
  have hnodup2 : (st.iter_pairs.map Prod.fst).Nodup := by
    unfold ObjState.iter_pairs
    rw [List.map_map]
    have : (Prod.fst ∘ fun n => (n, st.attrs n)) = id := rfl
    rw [this, List.map_id]
    exact hnodup.filter _
  exact ⟨apply_wraps_attrs_mem st.iter_pairs n f hcall hnodup2 hmem st,
    (apply_wraps_frame st.iter_pairs st).1,
    (apply_wraps_frame st.iter_pairs st).2⟩

/-- A fold that ignores the list elements is an iterate of its body. -/
theorem foldl_const_iterate {α β : Type} (g : β → β) :
    ∀ (l : List α) (s : β), l.foldl (fun s _ => g s) s = g^[l.length] s := by
  intro l
  induction l with
  | nil => intro s; rfl
  | cons p t ih =>
    intro s
    rw [List.foldl_cons, ih (g s), List.length_cons,
      Function.iterate_succ_apply]

/-- `k` wrapping passes layer exactly `k` wrappers on a public callable
member (and preserve the hypotheses along the way). -/
theorem wrap_pass_iterate (n : String) (hpub : startsWithUnderscore n = false) :
    ∀ (k : ℕ) (st : ObjState) (f : FnRep), st.dirNames.Nodup →
      n ∈ st.dirNames → st.clsProps.contains n = false →
      st.attrs n = some f → f.isCallable = true →
      (wrap_pass^[k] st).attrs n = some (FnRep.wrapped^[k] f) := by
  intro k
  induction k with
  | zero => intro st f _ _ _ hf _; exact hf
  | succ m ih =>
    intro st f hnodup hdir hprop hf hcall
    obtain ⟨h1, h2, h3⟩ := wrap_pass_spec st n f hnodup hdir hpub hprop
      hf hcall
    rw [Function.iterate_succ_apply, Function.iterate_succ_apply]
    exact ih (wrap_pass st) (FnRep.wrapped f) (h2 ▸ hnodup) (h2 ▸ hdir)
      (h3 ▸ hprop) h1 rfl

end Decorate

/-- C1 counterexample: a `KeyboardInterrupt`-style fault (`isExc = false`) is
not caught by `Response.execute`'s `except Exception` guard: the fault
propagates out unchanged and no outcome is constructed at all, so the
claimed `succeeded=false / value=null / fault.kind` outcome does not exist
for it. -/
theorem C1_counterexample :
    Response.execute (.error ⟨"KeyboardInterrupt", "stop", false⟩) 0 1 5 =
      .error ⟨"KeyboardInterrupt", "stop", false⟩ ∧
    ¬ ∃ r : Response,
        Response.execute (.error ⟨"KeyboardInterrupt", "stop", false⟩)
          0 1 5 = .ok r := by
  refine ⟨rfl, ?_⟩
  rintro ⟨r, hr⟩
  rw [show Response.execute
      (.error ⟨"KeyboardInterrupt", "stop", false⟩) 0 1 5 =
      .error ⟨"KeyboardInterrupt", "stop", false⟩ from rfl] at hr
  exact Except.noConfusion hr

/-- C1 amended: `Response.execute` on a normally-returning callable
constructs an outcome with `success = true`, `result` = the return value, no
exception and strictly positive `execution_time`; on a callable raising an
`Exception`-instance fault it constructs an outcome with `success = false`,
`result = None`, `error_name` = the fault's class name and positive
`execution_time`; a fault that is not an `Exception` instance propagates out
of `execute` unchanged and no outcome is constructed. -/
theorem C1_execute_outcome :
    (∀ (v : PyVal) (t0 t1 now : ℚ), ∃ r : Response,
      Response.execute (.ok v) t0 t1 now = .ok r ∧
      r.success = true ∧ r.result = some v ∧ r.exception = none ∧
      0 < r.execution_time) ∧
    (∀ (e : Exc) (t0 t1 now : ℚ), e.isExc = true → ∃ r : Response,
      Response.execute (.error e) t0 t1 now = .ok r ∧
      r.success = false ∧ r.result = none ∧
      r.error_name = some e.kind ∧ 0 < r.execution_time) ∧
    (∀ (e : Exc) (t0 t1 now : ℚ), e.isExc = false →
      Response.execute (.error e) t0 t1 now = .error e) := by
  refine ⟨?_, ?_, ?_⟩
  · intro v t0 t1 now
    exact ⟨_, rfl, rfl, rfl, rfl, pyRound6_pos (le_max_right _ _)⟩
  · intro e t0 t1 now he
    refine ⟨Response.init false none (some e)
      (pyRound6 (max (t1 - t0) (1/1000000))) (some t0) (some t1) none now,
      ?_, rfl, rfl, rfl, pyRound6_pos (le_max_right _ _)⟩
    simp [Response.execute, he]
  · intro e t0 t1 now he
    simp [Response.execute, he]

/-- Witness for C1 amended: a concrete `Exception`-instance fault is caught
and the constructed outcome carries its class name. -/
theorem C1_execute_outcome_witness :
    (Exc.mk "ValueError" "boom" true).isExc = true ∧
    ∃ r : Response,
      Response.execute (.error ⟨"ValueError", "boom", true⟩) 0 1 5 = .ok r ∧
      r.success = false ∧ r.result = none ∧
      r.error_name = some "ValueError" ∧ 0 < r.execution_time :=
  ⟨rfl, C1_execute_outcome.2.1 ⟨"ValueError", "boom", true⟩ 0 1 5 rfl⟩

/-- C2 counterexample: executing a callable that raises a caught
(`Exception`-instance) fault and then calling `clear()` on the constructed
outcome yields `exception = None` but `success = false`, violating the
claimed invariant `fault ≠ null ⇔ succeeded = false`. -/
theorem C2_counterexample :
    ¬ ∀ r : Response,
        Response.execute (.error ⟨"ValueError", "boom", true⟩) 0 1 5 =
          .ok r →
        (Response.clear r).invariant := by
  intro h
  have h2 := h (Response.init false none (some ⟨"ValueError", "boom", true⟩)
    (pyRound6 (max (1 - 0) (1/1000000))) (some 0) (some 1) none 5) rfl
  simp [Response.init, Response.clear, Response.invariant] at h2

/-- C2 amended: every outcome freshly constructed by `execute` satisfies the
invariant, and metadata writes preserve the `success`/`exception` fields;
but `clear()` nulls the exception while leaving `success` alone, so the
cleared outcome satisfies the invariant exactly when `success = true` —
`clear()` applied to a failed outcome breaks the equivalence. -/
theorem C2_invariant_amended :
    (∀ (f : Except Exc PyVal) (t0 t1 now : ℚ) (r : Response),
      Response.execute f t0 t1 now = .ok r → r.invariant) ∧
    (∀ (r : Response) (k : String) (v : PyVal),
      (r.metaPut k v).exception = r.exception ∧
      (r.metaPut k v).success = r.success) ∧
    (∀ r : Response, (r.clear).invariant ↔ r.success = true) := by
  refine ⟨?_, ?_, ?_⟩
  · intro f t0 t1 now r hr
    cases f with
    | ok v =>
      simp only [Response.execute, Except.ok.injEq] at hr
      subst hr
      simp [Response.init, Response.invariant]
    | error e =>
      by_cases he : e.isExc = true
      · simp only [Response.execute, he, if_true, Except.ok.injEq] at hr
        subst hr
        simp [Response.init, Response.invariant]
      · simp only [Response.execute, he, if_false] at hr
        exact Except.noConfusion hr
  · intro r k v
    exact ⟨rfl, rfl⟩
  · intro r
    unfold Response.invariant Response.clear
    cases h : r.success with
    | false => simp
    | true => simp

/-- Witness for C2 amended: a concrete successful execution constructs an
outcome that satisfies the invariant. -/
theorem C2_invariant_amended_witness :
    Response.execute (.ok (.vInt 7)) 0 1 5 =
      .ok (Response.init true (some (.vInt 7)) none
        (pyRound6 (max (1 - 0) (1/1000000))) (some 0) (some 1) none 5) ∧
    (Response.init true (some (.vInt 7)) none
      (pyRound6 (max (1 - 0) (1/1000000))) (some 0) (some 1)
      none 5).invariant :=
  ⟨rfl, C2_invariant_amended.1 (.ok (.vInt 7)) 0 1 5 _ rfl⟩

/-- C9 counterexample: a callable that successfully returns `False` under the
default `err_return = False` (the configuration `Decorate.catch_class` uses):
the wrapper returns `True` to the caller — a value that is neither the
operation's normal return value (`False`), nor the configured fallback
(`False`), nor a propagated fault. -/
theorem C9_counterexample :
    (Decorate.catch_retry_class_run (fun _ => .ok (.vBool false)) 1 3
        (.vBool false)).result = .ok (.vBool true) ∧
    PyVal.vBool true ≠ PyVal.vBool false := by
  decide

/-- C9 amended: the class wrapper hands the caller (a) the operation's normal
return value — unless that value compares Python-`==` to `err_return`, in
which case `True` is substituted; (b) a propagated fault identical in kind
and message when the fault is not an `Exception` instance; (c) `err_return`
after exhausting all attempts on matched faults (the fault is swallowed, not
re-raised). -/
theorem C9_wrapped_outcomes (f : ℕ → Except Exc PyVal) (retry_num : ℕ)
    (sleep_time : ℚ) (err_return : PyVal) (hn : 1 ≤ retry_num) :
    (∀ v, f 0 = .ok v →
      (Decorate.catch_retry_class_run f retry_num sleep_time
          err_return).result =
        .ok (if pyEq v err_return then .vBool true else v)) ∧
    (∀ e : Exc, f 0 = .error e → e.isExc = false →
      (Decorate.catch_retry_class_run f retry_num sleep_time
          err_return).result = .error e) ∧
    (∀ e : Exc, e.isExc = true → (∀ i, f i = .error e) →
      (Decorate.catch_retry_class_run f retry_num sleep_time
          err_return).result = .ok err_return) := by
  obtain ⟨m, rfl⟩ := Nat.exists_eq_add_of_le hn
  refine ⟨?_, ?_, ?_⟩
  · intro v hv
    by_cases hpe : pyEq v err_return <;>
      simp [Decorate.catch_retry_class_run, Decorate.catch_retry_class_go,
        Nat.add_comm 1 m, hv, hpe]
  · intro e hv he
    simp [Decorate.catch_retry_class_run, Decorate.catch_retry_class_go,
      Nat.add_comm 1 m, hv, he]
  · intro e he hf
    exact Decorate.catch_retry_class_go_allfail f e sleep_time err_return
      he hf (1 + m) 0

/-- Witness for C9 amended: one attempt, the operation returns `0`, which
Python compares equal to the default `err_return = False`, so the wrapper
returns `True`. -/
theorem C9_wrapped_outcomes_witness :
    (1 ≤ 1) ∧
    ((fun _ : ℕ => (Except.ok (PyVal.vInt 0) : Except Exc PyVal)) 0 =
      .ok (.vInt 0)) ∧
    (Decorate.catch_retry_class_run (fun _ => .ok (.vInt 0)) 1 3
        (.vBool false)).result = .ok (.vBool true) :=
  ⟨by decide, rfl, by
    have h := (C9_wrapped_outcomes (fun _ => .ok (.vInt 0)) 1 3
      (.vBool false) (by decide)).1 (.vInt 0) rfl
    simpa using h⟩

/-- C3 counterexample: wrapping an always-raising callable (a matched
`ValueError`-style fault) with `retry_num = 2`, defaults otherwise
(`err_return = False`, i.e. no fallback configured), does **not** re-raise
the last fault: after exactly 2 attempts the wrapper returns `False`. -/
theorem C3_counterexample :
    (Decorate.catch_retry_run (fun _ => .error ⟨"ValueError", "boom", true⟩)
        2 3 (.vBool false)).result ≠
      Except.error ⟨"ValueError", "boom", true⟩ ∧
    (Decorate.catch_retry_run (fun _ => .error ⟨"ValueError", "boom", true⟩)
        2 3 (.vBool false)).result = .ok (.vBool false) ∧
    (Decorate.catch_retry_run (fun _ => .error ⟨"ValueError", "boom", true⟩)
        2 3 (.vBool false)).attempts = 2 := by
  decide

/-- C3 amended: with `retry_num = 2` and a callable that always raises a
matched (caught) fault, the wrapper makes exactly 2 attempts, sleeps once in
between, and returns `err_return` (default `False`); the last fault is
swallowed, never re-raised. -/
theorem C3_retry_exhaustion (e : Exc) (sleep_time : ℚ) (err_return : PyVal)
    (h : e.isExc = true) :
    Decorate.catch_retry_run (fun _ => .error e) 2 sleep_time err_return =
      ⟨.ok err_return, 2, [sleep_time]⟩ := by
  simp [Decorate.catch_retry_run, Decorate.catch_retry_go, h]

/-- Witness for C3: concrete matched fault, concrete sleep and fallback. -/
theorem C3_retry_exhaustion_witness :
    (Exc.mk "ValueError" "boom" true).isExc = true ∧
    Decorate.catch_retry_run (fun _ => .error ⟨"ValueError", "boom", true⟩)
        2 3 (.vBool false) = ⟨.ok (.vBool false), 2, [3]⟩ :=
  ⟨rfl, C3_retry_exhaustion ⟨"ValueError", "boom", true⟩ 3 (.vBool false) rfl⟩

/-- C4: if the first invocation raises a fault that is not matched by the
`except Exception` clause (`isExc = false`, e.g. a `KeyboardInterrupt`), the
wrapper propagates that very fault — same kind and message — immediately:
one invocation, no retry consumed, no sleep. -/
theorem C4_unmatched_propagates (f : ℕ → Except Exc PyVal) (e : Exc)
    (retry_num : ℕ) (sleep_time : ℚ) (err_return : PyVal)
    (hn : 1 ≤ retry_num) (hf : f 0 = .error e) (he : e.isExc = false) :
    Decorate.catch_retry_run f retry_num sleep_time err_return =
      ⟨.error e, 1, []⟩ := by
  obtain ⟨m, rfl⟩ := Nat.exists_eq_add_of_le hn
  simp [Decorate.catch_retry_run, Decorate.catch_retry_go, Nat.add_comm 1 m,
    hf, he]

/-- Witness for C4: a concrete non-`Exception` fault propagates unchanged. -/
theorem C4_unmatched_propagates_witness :
    (1 ≤ 2) ∧
    ((fun _ : ℕ => (Except.error ⟨"KeyboardInterrupt", "stop", false⟩ :
        Except Exc PyVal)) 0 =
      .error ⟨"KeyboardInterrupt", "stop", false⟩) ∧
    (Exc.mk "KeyboardInterrupt" "stop" false).isExc = false ∧
    Decorate.catch_retry_run
        (fun _ => .error ⟨"KeyboardInterrupt", "stop", false⟩) 2 3
        (.vBool false) =
      ⟨.error ⟨"KeyboardInterrupt", "stop", false⟩, 1, []⟩ :=
  ⟨by decide, rfl, rfl,
    C4_unmatched_propagates _ _ 2 3 (.vBool false) (by decide) rfl rfl⟩

/-- C6 counterexample: with `retry_num = 3`, `sleep_time = 3` and an
always-raising matched fault, the two sleeps between the three attempts are
`[3, 3]` — constant, not a geometric progression with any ratio `> 1`. -/
theorem C6_counterexample :
    (Decorate.catch_retry_run (fun _ => .error ⟨"ValueError", "boom", true⟩)
        3 3 (.vBool false)).sleeps = [3, 3] ∧
    ¬ ∃ d q : ℚ, 1 < q ∧
      (Decorate.catch_retry_run
          (fun _ => .error ⟨"ValueError", "boom", true⟩)
          3 3 (.vBool false)).sleeps = [d, d * q] := by
  have h1 : (Decorate.catch_retry_run
      (fun _ => .error ⟨"ValueError", "boom", true⟩)
      3 3 (.vBool false)).sleeps = [3, 3] := by decide
  refine ⟨h1, ?_⟩
  rintro ⟨d, q, hq, h2⟩
  rw [h1] at h2
  have hd : (3 : ℚ) = d ∧ (3 : ℚ) = d * q := by
    simpa using h2
  obtain ⟨hd1, hd2⟩ := hd
  rw [← hd1] at hd2
  linarith

/-- C6 amended: the delay between attempts is the constant `sleep_time` —
every sleep the wrapper performs has that duration; there is no backoff
multiplier in the code. -/
theorem C6_constant_delay (f : ℕ → Except Exc PyVal) (retry_num : ℕ)
    (sleep_time : ℚ) (err_return : PyVal) (x : ℚ)
    (hx : x ∈ (Decorate.catch_retry_run f retry_num sleep_time
        err_return).sleeps) :
    x = sleep_time :=
  Decorate.catch_retry_go_sleeps_const f sleep_time err_return retry_num 0 x hx

/-- Witness for C6: a concrete run whose recorded sleep is `sleep_time`. -/
theorem C6_constant_delay_witness :
    (3 : ℚ) ∈ (Decorate.catch_retry_run
        (fun _ => .error ⟨"ValueError", "boom", true⟩)
        2 3 (.vBool false)).sleeps ∧
    (3 : ℚ) = 3 :=
  ⟨by decide,
    C6_constant_delay (fun _ => .error ⟨"ValueError", "boom", true⟩)
      2 3 (.vBool false) 3 (by decide)⟩

/-- C5 counterexample: a worker that finishes immediately (well within the
`limit_time = 1` deadline) returning `False` — a falsy value — does **not**
reach the caller: `Decorate.limit_time` returns the configured fallback. -/
theorem C5_counterexample :
    Decorate.limit_time_run 1 (.vStr "fallback") ⟨0, .ok (.vBool false)⟩ =
      .vStr "fallback" ∧
    PyVal.vStr "fallback" ≠ PyVal.vBool false := by
  constructor
  · apply Decorate.limit_time_run_falsy
    intro t
    unfold MyThread.get_result
    split <;> rfl
  · decide

/-- C5 amended: a worker fault never propagates to the caller — the wrapper
returns `err_result` (the worker thread's exception dies with the thread and
`get_result` keeps yielding `None`); a worker that finishes immediately gets
its result to the caller only if the result is truthy, otherwise the caller
receives `err_result` even though no timeout occurred. -/
theorem C5_timeout_guard (limit_time : ℚ) (err_result : PyVal) (w : Worker) :
    (∀ e : Exc, w.outcome = .error e →
      Decorate.limit_time_run limit_time err_result w = err_result) ∧
    (w.duration = 0 → ∀ v : PyVal, w.outcome = .ok v →
      Decorate.limit_time_run limit_time err_result w =
        (if v.truthy then v else err_result)) := by
  have htF : (0 : ℚ) ≤ Decorate.limit_time_final limit_time := by
    have h1 := pyRound1_nonneg (sub_nonneg.mpr (Int.floor_le limit_time))
    have h2 : (0 : ℚ) ≤ ((⌊limit_time⌋).toNat : ℚ) * (1/2) := by positivity
    unfold Decorate.limit_time_final
    linarith
  constructor
  · intro e he
    apply Decorate.limit_time_run_falsy
    intro t
    unfold MyThread.get_result
    rw [he]
    split <;> rfl
  · intro hd v hv
    obtain ⟨d, oc⟩ := w
    simp only at hd hv
    subst hd
    subst hv
    have hget : ∀ t : ℚ, 0 ≤ t →
        MyThread.get_result ⟨0, .ok v⟩ t = v := by
      intro t ht
      unfold MyThread.get_result
      rw [if_pos (by exact ht)]
    cases htr : v.truthy with
    | true =>
      rw [if_pos rfl]
      unfold Decorate.limit_time_run
      rcases Nat.eq_zero_or_pos (⌊limit_time⌋).toNat with hz | hpos
      · rw [hz]
        show (match Decorate.limit_time_poll ⟨0, .ok v⟩ 0 0 with
          | some v => v
          | none =>
            if (MyThread.get_result ⟨0, .ok v⟩
                (Decorate.limit_time_final limit_time)).truthy then
              MyThread.get_result ⟨0, .ok v⟩
                (Decorate.limit_time_final limit_time)
            else err_result) = v
        rw [show Decorate.limit_time_poll ⟨0, .ok v⟩ 0 0 = none from rfl]
        rw [hget _ htF]
        simp [htr]
      · rw [Decorate.limit_time_poll_ok htr _ hpos 0 le_rfl]
    | false =>
      have hfal : ∀ t, (MyThread.get_result ⟨0, .ok v⟩ t).truthy = false := by
        intro t
        unfold MyThread.get_result
        split
        · exact htr
        · rfl
      rw [if_neg (by exact Bool.false_ne_true)]
      exact Decorate.limit_time_run_falsy _ _ _ hfal

/-- Witness for C5 amended: an immediately-finishing worker with a truthy
result `7` reaches the caller through the guard. -/
theorem C5_timeout_guard_witness :
    (Worker.mk 0 (.ok (.vInt 7))).duration = 0 ∧
    (Worker.mk 0 (.ok (.vInt 7))).outcome = .ok (.vInt 7) ∧
    Decorate.limit_time_run 1 (.vStr "fb") ⟨0, .ok (.vInt 7)⟩ = .vInt 7 :=
  ⟨rfl, rfl, by
    have h := (C5_timeout_guard 1 (.vStr "fb") ⟨0, .ok (.vInt 7)⟩).2
      rfl (.vInt 7) rfl
    simpa using h⟩

/-- C7 counterexample: a class target with one public class-level
`@property foo` — on the metaclass lookup the name is not a `property`
(`metaIsProp = false`), yet it is a computed-property accessor of the
effective type (`typeIsProp = true`) and `getattr(cls, "foo")` is the
non-callable property object (`valIsCall = false`).  `class_func_list`
yields it anyway, so the enumeration can contain a computed-property
accessor whose value is not callable. -/
theorem C7_counterexample :
    ("foo", PyMember.mk false true false false) ∈
      class_func_list (PyObj.mk
        [("foo", PyMember.mk false true false false)] true) ∧
    (PyMember.mk false true false false).typeIsProp = true ∧
    (PyMember.mk false true false false).valIsCall = false := by
  refine ⟨?_, rfl, rfl⟩
  simp [class_func_list]; decide

/-- C7 amended: every pair yielded by `class_func_list` or by
`Decorate.iter_func` with default flags has a name that does not start with
an underscore and is not a `property` per the code's `obj.__class__` lookup;
the enumerator does not check that the value is callable (callers re-filter
with `callable`), and for class targets the `property` check consults the
metaclass, so class-level property accessors can leak through. -/
theorem C7_enumeration (obj : PyObj) (p : String × PyMember)
    (h : p ∈ class_func_list obj ∨ p ∈ Decorate.iter_func obj false) :
    startsWithUnderscore p.1 = false ∧ p.2.metaIsProp = false := by
  have hfilter : p ∈ obj.dirList.filter
      (fun q => ! startsWithUnderscore q.1 && !q.2.metaIsProp) := by
    rcases h with h | h
    · unfold class_func_list at h
      by_cases hc : obj.objCallable
      · rwa [if_pos hc] at h
      · rw [if_neg hc] at h
        exact absurd h (List.not_mem_nil p)
    · unfold Decorate.iter_func at h
      simpa using h
  have hp := List.of_mem_filter hfilter
  simp only [Bool.and_eq_true, Bool.not_eq_true'] at hp
  exact hp

/-- Witness for C7 amended: a public, non-property, callable method is
enumerated and indeed satisfies both conclusions. -/
theorem C7_enumeration_witness :
    (("bar", PyMember.mk false false true true) ∈
      class_func_list (PyObj.mk
        [("bar", PyMember.mk false false true true)] true) ∨
      ("bar", PyMember.mk false false true true) ∈
        Decorate.iter_func (PyObj.mk
          [("bar", PyMember.mk false false true true)] true) false) ∧
    (startsWithUnderscore "bar" = false ∧
      (PyMember.mk false false true true).metaIsProp = false) :=
  ⟨Or.inl (by simp [class_func_list]; decide),
    C7_enumeration (PyObj.mk [("bar", PyMember.mk false false true true)] true)
      ("bar", PyMember.mk false false true true)
      (Or.inl (by simp [class_func_list]; decide))⟩

/-- C10: one call of `Decorate(obj).catch_class_obj()` runs its identical
enumeration-and-wrap loop twice, the second pass wrapping the wrappers the
first installed: every public, non-property, callable member ends up bound
to exactly two nested wrappers around its original value; and the static
`Decorate.catch_class(cls)` applies one full wrapping pass per entry of its
outer `class_func_list` snapshot, layering as many wrappers as there are
enumerated public members. -/
theorem C10_double_wrap (st : pymagic.ObjState) (n : String) (f : pymagic.FnRep)
    (hnodup : st.dirNames.Nodup) (hdir : n ∈ st.dirNames)
    (hpub : startsWithUnderscore n = false)
    (hprop : st.clsProps.contains n = false)
    (hf : st.attrs n = some f) (hcall : f.isCallable = true) :
    (Decorate.catch_class_obj st).attrs n =
      some (FnRep.wrapped (FnRep.wrapped f)) ∧
    (Decorate.catch_class st).attrs n =
      some (FnRep.wrapped^[st.iter_pairs.length] f) := by
  constructor
  · obtain ⟨h1, h2, h3⟩ := Decorate.wrap_pass_spec st n f hnodup hdir hpub
      hprop hf hcall
    obtain ⟨h4, _, _⟩ := Decorate.wrap_pass_spec (Decorate.wrap_pass st) n
      (FnRep.wrapped f) (h2 ▸ hnodup) (h2 ▸ hdir) hpub (h3 ▸ hprop) h1 rfl
    exact h4
  · unfold Decorate.catch_class
    rw [Decorate.foldl_const_iterate Decorate.wrap_pass st.iter_pairs st]
    exact Decorate.wrap_pass_iterate n hpub st.iter_pairs.length st f
      hnodup hdir hprop hf hcall

/-- Witness for C10: on the concrete one-method object, `catch_class_obj`
installs exactly two nested wrappers and `catch_class` (outer snapshot of
length 1) exactly one. -/
theorem C10_double_wrap_witness :
    (exampleObj.dirNames.Nodup ∧ "foo" ∈ exampleObj.dirNames ∧
      startsWithUnderscore "foo" = false ∧
      exampleObj.clsProps.contains "foo" = false ∧
      exampleObj.attrs "foo" = some (FnRep.base 0 true) ∧
      (FnRep.base 0 true).isCallable = true) ∧
    (Decorate.catch_class_obj exampleObj).attrs "foo" =
      some (FnRep.wrapped (FnRep.wrapped (FnRep.base 0 true))) ∧
    (Decorate.catch_class exampleObj).attrs "foo" =
      some (FnRep.wrapped (FnRep.base 0 true)) := by
  have hmain := C10_double_wrap exampleObj "foo" (FnRep.base 0 true)
    (by decide) (by decide) (by decide) (by decide) (by decide) (by decide)
  refine ⟨⟨by decide, by decide, by decide, by decide, by decide, by decide⟩,
    hmain.1, ?_⟩
  have hlen : exampleObj.iter_pairs.length = 1 := by decide
  have h2 := hmain.2
  rw [hlen] at h2
  simpa using h2

/-- C8: `clear()` is idempotent — clearing twice equals clearing once — and a
single `clear()` nulls `result` and `exception`, empties `metadata`, and
leaves `success`, `start_time`, `end_time` and `execution_time` unchanged. -/
theorem C8_clear_idempotent :
    ∀ r : Response,
      r.clear.clear = r.clear ∧
      r.clear.result = none ∧
      r.clear.exception = none ∧
      r.clear.metadata = [] ∧
      r.clear.success = r.success ∧
      r.clear.start_time = r.start_time ∧
      r.clear.end_time = r.end_time ∧
      r.clear.execution_time = r.execution_time := by
  intro r
  exact ⟨rfl, rfl, rfl, rfl, rfl, rfl, rfl, rfl⟩

end pymagic
